import Mathlib

/-!
Shallow embedding of the n8n-nodes-oasys package (Velocity-BPA/n8n-nodes-oasys):
bridge status logic, bridge amount validation, layer classification, bridge
direction, trigger-node polling, the action node's per-item execute loop, and
the wei/OAS unit conversions, together with theorems settling the spec claims.
-/

namespace Oasys

/-! ## Constants (src/unnamed/part_009, `BRIDGE_CONFIG`) -/

/-- `BRIDGE_CONFIG.minDeposit = '1000000000000000'` (0.001 OAS in wei). -/
def minDeposit : Int := 1000000000000000

/-- `BRIDGE_CONFIG.maxDeposit = '100000000000000000000000'` (100,000 OAS in wei). -/
def maxDeposit : Int := 100000000000000000000000

/-- `BRIDGE_CONFIG.depositConfirmations = 64`. -/
def depositConfirmations : Int := 64

/-! ## Bridge status (src/nodes/Oasys/transport/apiClient.ts, `BridgeClient.getBridgeStatus`)

The RPC calls (`getTransactionReceipt`, `getBlockNumber`) are the environment:
the embedding takes their results as arguments (an optional receipt and the
current block number) and reproduces the branch structure of the method. -/

inductive BridgeDirection where
  | deposit
  | withdraw
deriving DecidableEq, Repr

inductive BridgeStatusKind where
  | pending
  | completed
  | failed
  | challenge
deriving DecidableEq, Repr

/-- A transaction receipt as used by `getBridgeStatus`: its block number and
its success flag (`receipt.status`, 0 = reverted). -/
structure Receipt where
  blockNumber : Int
  status : Int
deriving DecidableEq, Repr

structure BridgeStatusResult where
  status : BridgeStatusKind
  confirmations : Int
  requiredConfirmations : Int
deriving DecidableEq, Repr

/-- `BridgeClient.getBridgeStatus` (apiClient.ts lines 946-998), with the two
provider calls supplied as values: `receipt` is the result of
`getTransactionReceipt` (`none` = null) and `currentBlock` the result of
`getBlockNumber`. -/
def getBridgeStatus (receipt : Option Receipt) (currentBlock : Int)
    (direction : BridgeDirection) : BridgeStatusResult :=
  match receipt with
  | none =>
      { status := .pending, confirmations := 0,
        requiredConfirmations := depositConfirmations }
  | some r =>
      let confirmations := currentBlock - r.blockNumber
      if r.status = 0 then
        { status := .failed, confirmations := confirmations,
          requiredConfirmations := depositConfirmations }
      else if direction = .deposit then
        if confirmations ≥ depositConfirmations then
          { status := .completed, confirmations := confirmations,
            requiredConfirmations := depositConfirmations }
        else
          { status := .pending, confirmations := confirmations,
            requiredConfirmations := depositConfirmations }
      else
        { status := .challenge, confirmations := confirmations,
          requiredConfirmations := 0 }

/-! ## Bridge amount validation (src/unnamed/part_007, `validateBridgeAmount`) -/

/-- `BridgeLimits` (part_007): bigints become `Int`, the optional
`remainingDailyLimit` becomes `Option Int` (`none` = undefined). The code
guards the daily-limit check with JS truthiness, so `some 0` also skips it;
`dailyTruthy` captures that. -/
structure BridgeLimits where
  minDeposit : Int
  maxDeposit : Int
  minWithdraw : Int
  maxWithdraw : Int
  remainingDailyLimit : Option Int := none
deriving DecidableEq, Repr

/-- `getDefaultBridgeLimits()` (part_007). -/
def getDefaultBridgeLimits : BridgeLimits :=
  { minDeposit := minDeposit, maxDeposit := maxDeposit,
    minWithdraw := minDeposit, maxWithdraw := maxDeposit }

structure ValidationResult where
  isValid : Bool
  error : Option String := none
deriving DecidableEq, Repr

/-- JS truthiness of `limits.remainingDailyLimit` (a `bigint | undefined`):
truthy iff present and nonzero. -/
def dailyTruthy : Option Int → Bool
  | none => false
  | some d => d ≠ 0

/-- `validateBridgeAmount(amount, direction, limits)` (part_007 lines 347-377). -/
def validateBridgeAmount (amount : Int) (direction : BridgeDirection)
    (limits : BridgeLimits := getDefaultBridgeLimits) : ValidationResult :=
  let min := if direction = .deposit then limits.minDeposit else limits.minWithdraw
  let max := if direction = .deposit then limits.maxDeposit else limits.maxWithdraw
  if amount < min then
    { isValid := false, error := some ("Amount below minimum: " ++ toString min) }
  else if amount > max then
    { isValid := false, error := some ("Amount exceeds maximum: " ++ toString max) }
  else if dailyTruthy limits.remainingDailyLimit &&
      decide (amount > limits.remainingDailyLimit.getD 0) then
    { isValid := false,
      error := some ("Amount exceeds remaining daily limit: "
        ++ toString (limits.remainingDailyLimit.getD 0)) }
  else
    { isValid := true }

/-- `s` contains `t` as a substring. -/
def containsStr (s t : String) : Prop := ∃ p q, s = p ++ t ++ q

/-! ## Layer classification and bridge direction

`getLayerType`, `isHubNetwork`, `isVerseNetwork` and `getBridgeDirection` are
exercised by the repository's unit tests (src/unnamed/part_004,
src/test/unit/bridgeUtils.test.ts) but the module defining them is not among
the source files; they are modelled from the spec. The Hub chain ids and the
known Verse chain ids are taken from the source constants
(src/nodes/Oasys/constants/verses.ts). -/

/-- Chain ids of the Verse entries of the `VERSES` table
(src/nodes/Oasys/constants/verses.ts). -/
def verseChainIds : List Int := [19011, 29548, 2400, 7225878, 5555, 16116, 50006, 75512]

/-- Modelled from the spec: `isHubNetwork` (tested in src/unnamed/part_004 but
absent from the sources) — chain ids 248 (Hub mainnet) and 9372 (Hub testnet)
are Hub. -/
def isHubNetwork (chainId : Int) : Bool :=
  chainId = 248 || chainId = 9372

/-- Modelled from the spec: `isVerseNetwork` (tested in src/unnamed/part_004
but absent from the sources) — known Verse chain ids are Verse. -/
def isVerseNetwork (chainId : Int) : Bool :=
  verseChainIds.contains chainId

/-- `LayerType` (src/unnamed/part_006 line 19): `'hub' | 'verse'` — the type
has no third value. -/
inductive LayerType where
  | hub
  | verse
deriving DecidableEq, Repr

/-- `getLayerFromChainId` (src/unnamed/part_006 lines 24-30): Hub mainnet is
248, testnet is 9372; every other chain id returns `'verse'`. -/
def getLayerFromChainId (chainId : Int) : LayerType :=
  if chainId = 248 || chainId = 9372 then .hub else .verse

inductive LayerKind where
  | hub
  | verse
  | unknown
deriving DecidableEq, Repr

/-- Modelled from the spec: `getLayerType` (tested in src/unnamed/part_004 but
absent from the sources) — "chain ids 248/9372 classify as Hub; known Verse
chain ids classify as Verse; unknown ids classify as unknown". -/
def getLayerType (chainId : Int) : LayerKind :=
  if isHubNetwork chainId then .hub
  else if isVerseNetwork chainId then .verse
  else .unknown

/-- Modelled from the spec: `getBridgeDirection` (tested in
src/test/unit/bridgeUtils.test.ts but absent from the sources) — "deposit if
source is Hub and destination is Verse; withdraw if reverse; otherwise
undefined" (`none` = null). -/
def getBridgeDirection (fromChainId toChainId : Int) : Option BridgeDirection :=
  if isHubNetwork fromChainId && isVerseNetwork toChainId then some .deposit
  else if isVerseNetwork fromChainId && isHubNetwork toChainId then some .withdraw
  else none

/-! ## Trigger polling (src/nodes/Oasys/OasysTrigger.node.ts, `poll`)

The chain is the environment: `getBlockNumber` and `getBlock` results are
supplied as arguments (`Except` models a throwing RPC call, the inner `Option`
a null block). The `try`/`catch` of `poll` swallows the error after keeping
whatever was already pushed onto `results`, then returns `null` when `results`
is empty; the cursor write `workflowStaticData[stateKey] = currentBlock`
happens inside the `try`, after the loop, only when
`currentBlock > lastProcessedBlock`. -/

structure Block where
  timestamp : Nat
  hash : String
  txCount : Nat
deriving DecidableEq, Repr

/-- One `newBlock` record pushed by the poll loop. -/
structure NewBlockRec where
  blockNumber : Nat
  timestamp : Nat
  hash : String
  transactions : Nat
deriving DecidableEq, Repr

def mkNewBlockRec (blockNum : Nat) (b : Block) : NewBlockRec :=
  { blockNumber := blockNum, timestamp := b.timestamp, hash := b.hash,
    transactions := b.txCount }

/-- The block numbers iterated by the `newBlock` loop:
`for (blockNum = Math.max(L+1, C-5); blockNum <= C; blockNum++)`, guarded by
`C > L`. -/
def replayWindow (lastProcessedBlock currentBlock : Nat) : List Nat :=
  if currentBlock > lastProcessedBlock then
    List.range' (Nat.max (lastProcessedBlock + 1) (currentBlock - 5))
      (currentBlock + 1 - Nat.max (lastProcessedBlock + 1) (currentBlock - 5))
  else []

/-- The body of the `newBlock` loop: one `getBlock` per block number, a record
pushed when the block is non-null; a thrown error aborts the loop, keeping the
records already pushed (second component: whether an error was thrown). -/
def runBlocks (getBlock : Nat → Except String (Option Block)) :
    List Nat → List NewBlockRec × Bool
  | [] => ([], false)
  | b :: rest =>
    match getBlock b with
    | .error _ => ([], true)
    | .ok none => runBlocks getBlock rest
    | .ok (some blk) =>
      let r := runBlocks getBlock rest
      (mkNewBlockRec b blk :: r.1, r.2)

/-- `poll` for category `hub`/`verse`, event `newBlock`: fetch the current
block number, replay the window, swallow any error, update the cursor only
when no error was thrown and `currentBlock > lastProcessedBlock`, and return
`null` when no records were pushed. Result: (emitted records, new cursor). -/
def pollNewBlock (lastProcessedBlock : Nat)
    (getBlockNumber : Except String Nat)
    (getBlock : Nat → Except String (Option Block)) :
    Option (List NewBlockRec) × Nat :=
  match getBlockNumber with
  | .error _ => (none, lastProcessedBlock)
  | .ok currentBlock =>
    let r := runBlocks getBlock (replayWindow lastProcessedBlock currentBlock)
    let cursor :=
      if r.2 then lastProcessedBlock
      else if currentBlock > lastProcessedBlock then currentBlock
      else lastProcessedBlock
    (if r.1.isEmpty then none else some r.1, cursor)

/-- The record pushed by the `bridge` category branch. -/
structure BridgeTriggerRec where
  event : String
  verse : String
  message : String
deriving DecidableEq, Repr

/-- `poll` for category `bridge` (OasysTrigger.node.ts lines 417-428): pushes a
single fixed record, performs no chain query (`currentBlock` keeps its initial
value 0), so the cursor is never advanced. -/
def pollBridge (lastProcessedBlock : Nat) (event verseKey : String) :
    Option (List BridgeTriggerRec) × Nat :=
  let results : List BridgeTriggerRec :=
    [{ event := event, verse := verseKey, message := "Bridge event monitoring active" }]
  let currentBlock := 0
  let cursor :=
    if currentBlock > lastProcessedBlock then currentBlock else lastProcessedBlock
  (if results.isEmpty then none else some results, cursor)

/-! ## Action node execute loop (src/nodes/Oasys/Oasys.node.ts, `execute`)

The per-item dispatch is the environment: `evalItem` maps an item index to the
result of the item's `try` block (`Except` models a throw). The loop pushes
one `json` output per item; on a throw it pushes an `error` record and
continues when `continueOnFail()` is set, otherwise rethrows, aborting the
remaining items. -/

inductive OutItem where
  | json (value : String)
  | errorRec (message : String)
deriving DecidableEq, Repr

/-- The `for (let i = 0; ...)` loop of `Oasys.execute`
(Oasys.node.ts lines 856-858 and 1498-1506). -/
def executeLoop (continueOnFail : Bool) (evalItem : Nat → Except String String) :
    List Nat → Except String (List OutItem)
  | [] => .ok []
  | i :: rest =>
    match evalItem i with
    | .ok r =>
      match executeLoop continueOnFail evalItem rest with
      | .ok os => .ok (.json r :: os)
      | .error e => .error e
    | .error e =>
      if continueOnFail then
        match executeLoop continueOnFail evalItem rest with
        | .ok os => .ok (.errorRec e :: os)
        | .error e2 => .error e2
      else .error e

/-! ## Unit conversion (src/nodes/Oasys/utils/unitConverter.ts)

`weiToOas`/`oasToWei` delegate to ethers v6 `formatUnits`/`parseUnits` with 18
decimals; those library functions are embedded below following their fixed
semantics (pad to at least one whole digit, insert the decimal point, trim the
whole part to at least one digit and the fraction to at least one digit; parse
an optional sign, whole digits, an optional point and fraction digits, pad the
fraction to 18 digits, rejecting more than 18). -/

/-- Drop leading `0` characters, keeping at least one character
(the `while (str[0] === "0" && str[1] !== ".")` trim applied to the whole
part, where the character after the whole part is always the point). -/
def trimLeadingZeros : List Char → List Char
  | '0' :: c :: rest => trimLeadingZeros (c :: rest)
  | l => l

/-- Drop trailing `0` characters, keeping at least one character
(the trailing trim applied to the fraction part). -/
def trimTrailingZeros (l : List Char) : List Char :=
  (trimLeadingZeros l.reverse).reverse

/-- ethers v6 `formatUnits(value, 18)`. -/
def formatUnits18 (v : Int) : String :=
  let negative := if v < 0 then "-" else ""
  let s := (toString v.natAbs).data
  let s := if s.length ≤ 18 then List.replicate (18 + 1 - s.length) '0' ++ s else s
  let whole := s.take (s.length - 18)
  let frac := s.drop (s.length - 18)
  negative ++ String.mk (trimLeadingZeros whole) ++ "." ++ String.mk (trimTrailingZeros frac)

/-- Value of a list of decimal digit characters. -/
def digitsToNat (l : List Char) : Nat :=
  l.foldl (fun acc c => acc * 10 + (c.toNat - '0'.toNat)) 0

/-- ethers v6 `parseUnits(value, 18)`; `none` models the thrown argument
errors (string not matching the number pattern, no digits at all, more than 18
fraction digits). -/
def parseUnits18 (s : String) : Option Int :=
  let l := s.data
  let signAndRest : Bool × List Char :=
    match l with
    | '-' :: rest => (true, rest)
    | _ => (false, l)
  let neg := signAndRest.1
  let l' := signAndRest.2
  let whole := l'.takeWhile Char.isDigit
  let rest := l'.dropWhile Char.isDigit
  let fracPart : Option (List Char) :=
    match rest with
    | [] => some []
    | '.' :: rest2 => if rest2.all Char.isDigit then some rest2 else none
    | _ => none
  match fracPart with
  | none => none
  | some frac =>
    if whole.length + frac.length = 0 then none
    else if frac.length > 18 then none
    else
      let fracPadded := frac ++ List.replicate (18 - frac.length) '0'
      let n : Int := Int.ofNat (digitsToNat (whole ++ fracPadded))
      some (if neg then -n else n)

/-- `weiToOas(wei)` (unitConverter.ts line 18). -/
def weiToOas (wei : Int) : String := formatUnits18 wei

/-- `oasToWei(oas)` (unitConverter.ts line 25); `none` models the throw on an
invalid decimal string. -/
def oasToWei (oas : String) : Option Int := parseUnits18 oas

/-! ## Helper lemmas -/

/-- The Hub chain ids 248 and 9372 are not in the Verse chain-id table. -/
theorem hub_not_verse (c : Int) : isHubNetwork c = true → isVerseNetwork c = false := by
  intro h
  have hc : c = 248 ∨ c = 9372 := by
    simpa [isHubNetwork] using h
  rcases hc with rfl | rfl <;> decide

/-! ## Claim theorems -/

/-- Claim C1: `getBridgeStatus` is derived only from receipt presence,
confirmation count and the receipt success flag: no receipt gives `pending`
with 0 confirmations; a receipt with status flag 0 gives `failed`; for
`deposit` with a successful receipt the status is `completed` exactly when
`currentBlock - receipt.blockNumber ≥ 64` and `pending` otherwise; for
`withdraw` with a successful receipt the status is always `challenge`. -/
theorem getBridgeStatus_spec (receipt : Option Receipt) (currentBlock : Int)
    (direction : BridgeDirection) :
    (receipt = none →
      getBridgeStatus receipt currentBlock direction =
        { status := .pending, confirmations := 0,
          requiredConfirmations := depositConfirmations }) ∧
    (∀ r, receipt = some r → r.status = 0 →
      getBridgeStatus receipt currentBlock direction =
        { status := .failed, confirmations := currentBlock - r.blockNumber,
          requiredConfirmations := depositConfirmations }) ∧
    (∀ r, receipt = some r → r.status ≠ 0 →
      ((getBridgeStatus receipt currentBlock .deposit).status = .completed ↔
          depositConfirmations ≤ currentBlock - r.blockNumber) ∧
      (currentBlock - r.blockNumber < depositConfirmations →
          (getBridgeStatus receipt currentBlock .deposit).status = .pending) ∧
      (getBridgeStatus receipt currentBlock .withdraw).status = .challenge) := by
  refine ⟨?_, ?_, ?_⟩
  · rintro rfl; rfl
  · rintro r rfl h0
    simp [getBridgeStatus, h0]
  · rintro r rfl h0
    rcases le_or_lt depositConfirmations (currentBlock - r.blockNumber) with hge | hlt
    · refine ⟨?_, ?_, ?_⟩
      · simp [getBridgeStatus, h0, hge]
      · intro hlt2
        exact absurd hge (not_le.mpr hlt2)
      · simp [getBridgeStatus, h0]
    · refine ⟨?_, ?_, ?_⟩
      · simp [getBridgeStatus, h0, not_le.mpr hlt]
      · intro _
        simp [getBridgeStatus, h0, not_le.mpr hlt]
      · simp [getBridgeStatus, h0]

/-- Witness for C1: a deposit receipt 90 blocks deep with success flag 1 is
`completed`. -/
theorem getBridgeStatus_spec_witness :
    (getBridgeStatus (some { blockNumber := 10, status := 1 }) 100
        BridgeDirection.deposit).status = BridgeStatusKind.completed :=
  ((getBridgeStatus_spec (some { blockNumber := 10, status := 1 }) 100
      BridgeDirection.deposit).2.2 { blockNumber := 10, status := 1 } rfl
    (by decide)).1.mpr (by decide)

/-- Claim C3: with the default limits, `validateBridgeAmount` rejects amounts
below the configured minimum with an error containing "minimum", rejects
amounts above the configured maximum with an error containing "maximum",
rejects zero and negative amounts (the minimum being positive), and accepts
amounts within the configured range. -/
theorem validateBridgeAmount_spec (amount : Int) (direction : BridgeDirection) :
    (amount < minDeposit →
      (validateBridgeAmount amount direction).isValid = false ∧
      ∃ e, (validateBridgeAmount amount direction).error = some e ∧
        containsStr e "minimum") ∧
    (maxDeposit < amount →
      (validateBridgeAmount amount direction).isValid = false ∧
      ∃ e, (validateBridgeAmount amount direction).error = some e ∧
        containsStr e "maximum") ∧
    (amount ≤ 0 → (validateBridgeAmount amount direction).isValid = false) ∧
    (minDeposit ≤ amount → amount ≤ maxDeposit →
      validateBridgeAmount amount direction = { isValid := true, error := none }) := by
  have hmin : (0 : Int) < minDeposit := by decide
  refine ⟨?_, ?_, ?_, ?_⟩
  · intro h
    cases direction <;>
      refine ⟨by simp [validateBridgeAmount, getDefaultBridgeLimits, h],
        "Amount below minimum: " ++ toString minDeposit,
        by simp [validateBridgeAmount, getDefaultBridgeLimits, h],
        "Amount below ", ": " ++ toString minDeposit, by decide⟩
  · intro h
    have hnl : ¬ amount < minDeposit := by
      simp only [not_lt]
      exact le_trans (by decide) (le_of_lt h)
    cases direction <;>
      refine ⟨by simp [validateBridgeAmount, getDefaultBridgeLimits, h, hnl],
        "Amount exceeds maximum: " ++ toString maxDeposit,
        by simp [validateBridgeAmount, getDefaultBridgeLimits, h, hnl],
        "Amount exceeds ", ": " ++ toString maxDeposit, by decide⟩
  · intro h
    have hlt : amount < minDeposit := lt_of_le_of_lt h hmin
    cases direction <;>
      simp [validateBridgeAmount, getDefaultBridgeLimits, hlt]
  · intro h1 h2
    cases direction <;>
      simp [validateBridgeAmount, getDefaultBridgeLimits, not_lt.mpr h1,
        not_lt.mpr h2, dailyTruthy]

/-- Witness for C3: the amount 0 is rejected and an in-range amount is
accepted. -/
theorem validateBridgeAmount_spec_witness :
    (validateBridgeAmount 0 BridgeDirection.deposit).isValid = false ∧
    validateBridgeAmount 5000000000000000 BridgeDirection.withdraw =
      { isValid := true, error := none } :=
  ⟨(validateBridgeAmount_spec 0 BridgeDirection.deposit).2.2.1 (by decide),
   (validateBridgeAmount_spec 5000000000000000 BridgeDirection.withdraw).2.2.2
     (by decide) (by decide)⟩

/-- Claim C4 (code bug): the layer classifier present in the sources,
`getLayerFromChainId`, is two-valued — it classifies 248 and 9372 as Hub and
every other chain id, including the unrecognized ids 1 and 999999, as Verse;
no `unknown` classification exists in its return type, diverging from the
spec's and the repository's own test's expectation (the spec-modelled
`getLayerType`, which classifies 1 as `unknown`). -/
theorem getLayerFromChainId_bug :
    getLayerFromChainId 248 = LayerType.hub ∧
    getLayerFromChainId 9372 = LayerType.hub ∧
    getLayerFromChainId 1 = LayerType.verse ∧
    getLayerFromChainId 999999 = LayerType.verse ∧
    (∀ c : Int, getLayerFromChainId c = LayerType.hub ∨
      getLayerFromChainId c = LayerType.verse) ∧
    getLayerType 1 = LayerKind.unknown := by
  refine ⟨by decide, by decide, by decide, by decide, ?_, by decide⟩
  intro c
  unfold getLayerFromChainId
  split
  · exact Or.inl rfl
  · exact Or.inr rfl

/-- Claim C5 (spec-modelled `getBridgeDirection`): Hub source to Verse
destination yields `deposit`, Verse source to Hub destination yields
`withdraw`, and same-layer or Verse-to-Verse pairs yield no direction. -/
theorem getBridgeDirection_spec (a b : Int) :
    getBridgeDirection 248 19011 = some BridgeDirection.deposit ∧
    getBridgeDirection 19011 248 = some BridgeDirection.withdraw ∧
    (getLayerType a = getLayerType b → getBridgeDirection a b = none) ∧
    (isVerseNetwork a = true → isVerseNetwork b = true →
      getBridgeDirection a b = none) := by
  have Ha := hub_not_verse a
  have Hb := hub_not_verse b
  refine ⟨by decide, by decide, ?_, ?_⟩
  · intro hlayer
    unfold getBridgeDirection
    unfold getLayerType at hlayer
    cases hha : isHubNetwork a <;> cases hva : isVerseNetwork a <;>
      cases hhb : isHubNetwork b <;> cases hvb : isVerseNetwork b <;>
      simp_all
  · intro hva hvb
    unfold getBridgeDirection
    cases hha : isHubNetwork a
    · cases hhb : isHubNetwork b
      · simp [hha, hva, hvb, hhb]
      · exact absurd (Hb hhb) (by simp [hvb])
    · exact absurd (Ha hha) (by simp [hva])

/-- Witness for C5: a Verse-to-Verse pair (19011 to 29548) yields no
direction. -/
theorem getBridgeDirection_spec_witness :
    getBridgeDirection 19011 29548 = none :=
  (getBridgeDirection_spec 19011 29548).2.2.2 (by decide) (by decide)

/-- When every block of the window is fetched without error and is non-null,
the loop pushes exactly one record per block and no error is recorded. -/
theorem runBlocks_length_of_ok (getBlock : Nat → Except String (Option Block))
    (w : List Nat) (h : ∀ b ∈ w, ∃ blk, getBlock b = .ok (some blk)) :
    (runBlocks getBlock w).1.length = w.length ∧
    (runBlocks getBlock w).2 = false := by
  induction w with
  | nil => simp [runBlocks]
  | cons b rest ih =>
    obtain ⟨blk, hblk⟩ := h b (by simp)
    have ih' := ih (fun x hx => h x (by simp [hx]))
    simp [runBlocks, hblk, ih'.1, ih'.2]

/-- Claim C2 (amended): when the current height C exceeds the stored height L,
the `newBlock` poll iterates exactly the blocks from max(L+1, C-5) through C
inclusive — at most 6 blocks, not 5 — emitting one record per (existing)
block; when C ≤ L it iterates nothing. -/
theorem replayWindow_spec (L C : Nat)
    (getBlock : Nat → Except String (Option Block)) :
    (∀ b, b ∈ replayWindow L C ↔
      (L < C ∧ Nat.max (L + 1) (C - 5) ≤ b ∧ b ≤ C)) ∧
    (replayWindow L C).length ≤ 6 ∧
    ((∀ b ∈ replayWindow L C, ∃ blk, getBlock b = Except.ok (some blk)) →
      (runBlocks getBlock (replayWindow L C)).1.length =
        (replayWindow L C).length) := by
  have hmax2 : C - 5 ≤ Nat.max (L + 1) (C - 5) := Nat.le_max_right _ _
  refine ⟨?_, ?_, ?_⟩
  · intro b
    unfold replayWindow
    split
    · rename_i hLC
      have hle : Nat.max (L + 1) (C - 5) ≤ C :=
        Nat.max_le.mpr ⟨hLC, Nat.sub_le _ _⟩
      rw [List.mem_range'_1]
      constructor
      · rintro ⟨h1, h2⟩
        exact ⟨hLC, h1, by omega⟩
      · rintro ⟨_, h1, h2⟩
        exact ⟨h1, by omega⟩
    · rename_i hLC
      constructor
      · intro hb
        exact absurd hb (List.not_mem_nil b)
      · rintro ⟨h1, -⟩
        exact absurd h1 hLC
  · unfold replayWindow
    split
    · rw [List.length_range']
      omega
    · simp
  · intro h
    exact (runBlocks_length_of_ok getBlock _ h).1

/-- Counterexample for C2: with stored height 0 and current height 100 the
poll replays 6 blocks (95 through 100), exceeding the claimed bound of 5. -/
theorem replayWindow_counterexample :
    (replayWindow 0 100).length = 6 ∧ ¬ (replayWindow 0 100).length ≤ 5 := by
  constructor <;> decide

/-- Witness for C2: block 97 is in the window for heights 0 to 100, and with
every block present the loop emits one record per window block. -/
theorem replayWindow_spec_witness :
    97 ∈ replayWindow 0 100 ∧
    (runBlocks (fun _ => Except.ok (some { timestamp := 0, hash := "a", txCount := 0 }))
        (replayWindow 0 100)).1.length = (replayWindow 0 100).length :=
  ⟨((replayWindow_spec 0 100 (fun _ => Except.ok none)).1 97).mpr
      ⟨by decide, by decide, by decide⟩,
   (replayWindow_spec 0 100
      (fun _ => Except.ok (some { timestamp := 0, hash := "a", txCount := 0 }))).2.2
      (fun b _ => ⟨{ timestamp := 0, hash := "a", txCount := 0 }, rfl⟩)⟩

/-- Claim C7 (amended): polling errors are swallowed, never propagated: an
error while fetching the block number yields the no-new-events result with an
unchanged cursor, and an error during the loop yields exactly the records
accumulated before the error — the no-new-events result when there are
none. -/
theorem pollNewBlock_swallows (L : Nat) (gn : Except String Nat)
    (g : Nat → Except String (Option Block)) :
    (∀ e, gn = .error e → pollNewBlock L gn g = (none, L)) ∧
    (∀ C, gn = .ok C → (runBlocks g (replayWindow L C)).1 = [] →
      (pollNewBlock L gn g).1 = none) ∧
    (∀ C, gn = .ok C → (runBlocks g (replayWindow L C)).1 ≠ [] →
      (pollNewBlock L gn g).1 = some (runBlocks g (replayWindow L C)).1) := by
  refine ⟨?_, ?_, ?_⟩
  · rintro e rfl
    rfl
  · rintro C rfl h
    simp [pollNewBlock, h]
  · rintro C rfl h
    rcases hr : (runBlocks g (replayWindow L C)).1 with - | ⟨x, xs⟩
    · exact absurd hr h
    · simp [pollNewBlock, hr]

/-- A block-fetch that succeeds for block 1 and throws for every other
block. -/
def getBlockThrowsAfter1 : Nat → Except String (Option Block) :=
  fun b =>
    if b = 1 then .ok (some { timestamp := 0, hash := "a", txCount := 0 })
    else .error "RPC failure"

/-- Counterexample for C7: with stored height 0, current height 2, block 1
present and block 2 throwing, an error is thrown during polling yet the poll
returns the record for block 1, not the no-new-events result. -/
theorem pollNewBlock_counterexample :
    (runBlocks getBlockThrowsAfter1 (replayWindow 0 2)).2 = true ∧
    (pollNewBlock 0 (Except.ok 2) getBlockThrowsAfter1).1 =
      some [{ blockNumber := 1, timestamp := 0, hash := "a", transactions := 0 }] ∧
    (pollNewBlock 0 (Except.ok 2) getBlockThrowsAfter1).1 ≠ none := by
  refine ⟨?_, ?_, ?_⟩ <;> decide

/-- A block-fetch whose every block is null. -/
def getBlockAllNull : Nat → Except String (Option Block) := fun _ => .ok none

/-- Witness for C7: a poll whose block-number fetch throws yields the
no-new-events result and an unchanged cursor. -/
theorem pollNewBlock_swallows_witness :
    pollNewBlock 3 (Except.error "boom") getBlockAllNull = (none, 3) :=
  (pollNewBlock_swallows 3 (Except.error "boom") getBlockAllNull).1 "boom" rfl

/-- Claim C9: the cursor is monotonically non-decreasing: a poll either leaves
it unchanged or — only when no error was thrown and the current height is
strictly greater than the stored value — sets it to the current height. -/
theorem pollNewBlock_cursor_monotone (L : Nat) (gn : Except String Nat)
    (g : Nat → Except String (Option Block)) :
    L ≤ (pollNewBlock L gn g).2 ∧
    ((pollNewBlock L gn g).2 = L ∨
      ∃ C, gn = Except.ok C ∧ L < C ∧ (pollNewBlock L gn g).2 = C ∧
        (runBlocks g (replayWindow L C)).2 = false) := by
  cases gn with
  | error e => exact ⟨le_refl L, Or.inl rfl⟩
  | ok C =>
    cases herr : (runBlocks g (replayWindow L C)).2 with
    | true =>
      constructor
      · simp [pollNewBlock, herr]
      · left
        simp [pollNewBlock, herr]
    | false =>
      by_cases hC : L < C
      · constructor
        · simp [pollNewBlock, herr, hC]
          omega
        · right
          exact ⟨C, rfl, hC, by simp [pollNewBlock, herr, hC], herr⟩
      · constructor
        · simp [pollNewBlock, herr, hC]
        · left
          simp [pollNewBlock, herr, hC]

/-- Claim C10: a `bridge`-category poll emits exactly one record carrying the
fixed message, never yields the no-new-events result, and leaves the cursor
unchanged (no chain query advances it). -/
theorem pollBridge_spec (L : Nat) (ev vk : String) :
    (pollBridge L ev vk).1 =
      some [{ event := ev, verse := vk,
              message := "Bridge event monitoring active" }] ∧
    (pollBridge L ev vk).1 ≠ none ∧
    (pollBridge L ev vk).2 = L := by
  refine ⟨rfl, by simp [pollBridge], by simp [pollBridge]⟩

/-- Witness for C10: a concrete bridge poll emits the fixed single record. -/
theorem pollBridge_spec_witness :
    (pollBridge 5 "deposit" "homeVerse").1 =
      some [{ event := "deposit", verse := "homeVerse",
              message := "Bridge event monitoring active" }] :=
  (pollBridge_spec 5 "deposit" "homeVerse").1

/-- Claim C8: with continue-on-fail set the execute loop emits one output per
item — the item's JSON on success, an error record on a throw — and continues;
when no item throws, it emits exactly one JSON output per input item under
either policy; without continue-on-fail the first throw is propagated,
aborting the remaining items. -/
theorem executeLoop_spec (evalItem : Nat → Except String String)
    (items : List Nat) :
    (executeLoop true evalItem items =
      Except.ok (items.map fun i =>
        match evalItem i with
        | .ok r => OutItem.json r
        | .error e => OutItem.errorRec e)) ∧
    ((∀ i ∈ items, ∃ r, evalItem i = .ok r) → ∀ cof,
      ∃ os, executeLoop cof evalItem items = .ok os ∧
        os.length = items.length ∧ ∀ o ∈ os, ∃ v, o = OutItem.json v) ∧
    (∀ pre i rest e, items = pre ++ i :: rest →
      (∀ j ∈ pre, ∃ r, evalItem j = .ok r) → evalItem i = .error e →
      executeLoop false evalItem items = .error e) := by
  refine ⟨?_, ?_, ?_⟩
  · induction items with
    | nil => rfl
    | cons i rest ih =>
      cases heval : evalItem i with
      | ok r => simp [executeLoop, heval, ih]
      | error e => simp [executeLoop, heval, ih]
  · intro h cof
    induction items with
    | nil => exact ⟨[], rfl, rfl, by simp⟩
    | cons i rest ih =>
      obtain ⟨r, hr⟩ := h i (by simp)
      obtain ⟨os, hos, hlen, hjson⟩ := ih (fun x hx => h x (by simp [hx]))
      refine ⟨OutItem.json r :: os, ?_, by simp [hlen], ?_⟩
      · simp [executeLoop, hr, hos]
      · intro o ho
        rcases List.mem_cons.mp ho with rfl | ho2
        · exact ⟨r, rfl⟩
        · exact hjson o ho2
  · intro pre i rest e hitems
    subst hitems
    induction pre with
    | nil =>
      intro hpre hi
      simp [executeLoop, hi]
    | cons p ps ih =>
      intro hpre hi
      obtain ⟨r, hr⟩ := hpre p (by simp)
      have ih' := ih (fun j hj => hpre j (by simp [hj])) hi
      simp [executeLoop, hr, ih']

/-- An item evaluation that throws on item 1 only. -/
def evalItemEx : Nat → Except String String :=
  fun i => if i = 1 then .error "bad item" else .ok "ok"

/-- Witness for C8: without continue-on-fail, the throw at item 1 of
`[0, 1, 2]` is propagated and aborts item 2. -/
theorem executeLoop_spec_witness :
    executeLoop false evalItemEx [0, 1, 2] = Except.error "bad item" :=
  (executeLoop_spec evalItemEx [0, 1, 2]).2.2 [0] 1 [2] "bad item" rfl
    (fun j hj => ⟨"ok", by
      simp only [List.mem_singleton] at hj
      subst hj
      rfl⟩) rfl

/-- Counterexample for C6: `weiToOas` renders 10^18 wei as "1.0" (the
embedded ethers `formatUnits` keeps one fractional digit), not "1". -/
theorem weiToOas_counterexample :
    weiToOas 1000000000000000000 = "1.0" ∧
    weiToOas 1000000000000000000 ≠ "1" := by
  constructor <;> decide

/-- Claim C6 (amended): the wei to OAS to wei round-trip preserves the value
for representative inputs, with 1 OAS = 10^18 wei; `weiToOas` renders 10^18
wei as "1.0" and `oasToWei` parses "0.5" to 5·10^17 wei. -/
theorem unitConversion_roundtrip :
    oasToWei (weiToOas 1000000000000000000) = some 1000000000000000000 ∧
    oasToWei (weiToOas 500000000000000000) = some 500000000000000000 ∧
    oasToWei (weiToOas 0) = some 0 ∧
    oasToWei (weiToOas 1) = some 1 ∧
    oasToWei (weiToOas 123456789) = some 123456789 ∧
    oasToWei (weiToOas 100000000000000000000000) = some 100000000000000000000000 ∧
    weiToOas 1000000000000000000 = "1.0" ∧
    oasToWei "0.5" = some 500000000000000000 := by
  refine ⟨?_, ?_, ?_, ?_, ?_, ?_, ?_, ?_⟩ <;> decide

end Oasys
